import Mathlib

/-!
Verification of the Navigable Distance Engine of `src/plugins/nav_plugin.py`
(repository Space3D-Bench/RAG3D-Chat) against its natural-language
specification.

The embedding translates the Python source into Lean:

* Python floats at the parsing boundary are modelled by `PyFloat`
  (a rational value, or one of the non-finite values `nan` / `inf` / `ninf`);
  the exact bit-level rounding of IEEE floats is not observable in any of
  the properties below, so a finite float is carried as the exact rational
  denoted by its source text.
* External collaborators (the LLM chat `AbstractLlmChat.get_response`,
  `igl.signed_distance`, `pygeodesic`'s `PyGeodesicAlgorithmExact`, and the
  plotly-backed body of `visualize_navmesh_3d`) are parameters gathered in
  `NavExternals`; the engine's own control flow is translated literally.
* Exceptions raised by Python code and caught by `try/except` are modelled
  with `Option`; an exception that escapes a method is modelled with
  `Except`.
* Side effects of `_get_navigable_distance` (the visualizer invocation) are
  made explicit as a returned list of `VisEvent`s, and the plugin object is
  threaded through every method so that mutation of `self` would be
  observable; the Python methods never assign to `self` outside `__init__`,
  which the embedding reflects by returning the state it received.
* The exact-geometry model of snapping (`_snap_to_closest_vertex` and the
  closest-point-on-surface computation it delegates to
  `igl.signed_distance`) works over `ℚ`; Euclidean distances are compared
  through their squares, which preserves order and ties since squaring is
  strictly monotone on nonnegative reals.
-/

/-- Model of a Python float value: a finite value carried as an exact
rational, or one of the non-finite values produced by `float("nan")`,
`float("inf")`, `float("-inf")`. -/
inductive PyFloat where
  | finite (q : ℚ)
  | nan
  | inf
  | ninf
deriving DecidableEq, Repr

/-- A parsed 3D position, as produced by a row of
`np.array(..., dtype=float).reshape(-1, 3)` in `_nl_to_numpy`. -/
structure PVec3 where
  x : PyFloat
  y : PyFloat
  z : PyFloat
deriving DecidableEq, Repr

/-- A Python float is finite when it is neither NaN nor an infinity. -/
def PyFloat.isFinite : PyFloat → Bool
  | .finite _ => true
  | _ => false

/-- A query point is a finite 3-vector when all three components are finite. -/
def PVec3.isFinite (v : PVec3) : Bool :=
  v.x.isFinite && v.y.isFinite && v.z.isFinite

/-- Remove every occurrence of a character — Python `str.replace(c, "")`
for a one-character pattern. -/
def removeChar (c : Char) (l : List Char) : List Char :=
  l.filter (fun x => x ≠ c)

/-- Helper for `splitOnChar`, carrying the current (reversed) piece. -/
def splitOnCharAux (c : Char) : List Char → List Char → List (List Char)
  | [], acc => [acc.reverse]
  | x :: xs, acc =>
      if x = c then acc.reverse :: splitOnCharAux c xs []
      else splitOnCharAux c xs (x :: acc)

/-- Split at every occurrence of a character, keeping empty pieces —
Python `str.split(c)` for a one-character separator. -/
def splitOnChar (c : Char) (l : List Char) : List (List Char) :=
  splitOnCharAux c l []

/-- The ASCII whitespace characters stripped by Python `str.strip()`. -/
def isPySpace (c : Char) : Bool :=
  c = ' ' || c = '\t' || c = '\n' || c = '\x0d' || c = '\x0b' || c = '\x0c'

/-- Strip leading and trailing whitespace — Python `str.strip()`. -/
def pyStrip (l : List Char) : List Char :=
  ((l.dropWhile isPySpace).reverse.dropWhile isPySpace).reverse

/-- Lowercase an ASCII letter, leave everything else unchanged. -/
def charLower (c : Char) : Char :=
  if 'A' ≤ c && c ≤ 'Z' then Char.ofNat (c.toNat + 32) else c

/-- Lowercase a character list — Python `str.lower()` on ASCII input. -/
def listLower (l : List Char) : List Char :=
  l.map charLower

/-- All characters are ASCII decimal digits. -/
def allDigits (l : List Char) : Bool :=
  l.all Char.isDigit

/-- Value of a list of decimal digits. -/
def digitsToNat (l : List Char) : ℕ :=
  l.foldl (fun a c => 10 * a + (c.toNat - 48)) 0

/-- Mantissa of a Python float literal, i.e. the part before any exponent:
digits, optionally with one decimal point, at least one digit present
(`"12"`, `"12.5"`, `".5"`, `"5."`). -/
def parseMantissa (l : List Char) : Option ℚ :=
  match splitOnChar '.' l with
  | [a] => if a ≠ [] && allDigits a then some (digitsToNat a) else none
  | [a, b] =>
      if (a ≠ [] || b ≠ []) && allDigits a && allDigits b then
        some ((digitsToNat a : ℚ) + (digitsToNat b : ℚ) / 10 ^ b.length)
      else none
  | _ => none

/-- Exponent of a Python float literal: an optional sign followed by at
least one digit. -/
def parseExponent (l : List Char) : Option ℤ :=
  match l with
  | '-' :: t => if t ≠ [] && allDigits t then some (-(digitsToNat t : ℤ)) else none
  | '+' :: t => if t ≠ [] && allDigits t then some (digitsToNat t : ℤ) else none
  | t => if t ≠ [] && allDigits t then some (digitsToNat t : ℤ) else none

/-- Unsigned body of a Python float string (already lowercased): the words
accepted by `float()` for non-finite values, or a decimal mantissa with an
optional exponent. -/
def parseUnsignedPyFloat (l : List Char) : Option PyFloat :=
  if l = "inf".toList || l = "infinity".toList then some .inf
  else if l = "nan".toList then some .nan
  else
    match splitOnChar 'e' l with
    | [m] => (parseMantissa m).map .finite
    | [m, e] => do
        let mv ← parseMantissa m
        let ev ← parseExponent e
        pure (.finite (mv * (10 : ℚ) ^ ev))
    | _ => none

/-- Negate a Python float (used for a leading `"-"`); the sign of NaN is
not observable. -/
def PyFloat.neg : PyFloat → PyFloat
  | .finite q => .finite (-q)
  | .nan => .nan
  | .inf => .ninf
  | .ninf => .inf

/-- Modelled from the spec: the Python built-in `float(str)` used by
`np.array(split_values, dtype=float)` in `_nl_to_numpy` is library code
outside this repository.  The model strips surrounding whitespace, is
case-insensitive, accepts an optional sign, the words `inf` / `infinity` /
`nan`, and decimal notation with an optional exponent, returning the exact
rational value; it returns `none` exactly when `float()` would raise
`ValueError`.  (Digit-group underscores and overflow of huge exponents to
infinity are not modelled; no claim depends on them.) -/
def pyFloatOfChars (l : List Char) : Option PyFloat :=
  match listLower (pyStrip l) with
  | '-' :: t => (parseUnsignedPyFloat t).map PyFloat.neg
  | '+' :: t => parseUnsignedPyFloat t
  | t => parseUnsignedPyFloat t

/-- Tokenisation step of `_nl_to_numpy` (`nav_plugin.py` lines 129-130):
remove all parentheses, then split the response on commas. -/
def navTokens (response : String) : List (List Char) :=
  splitOnChar ',' (removeChar ')' (removeChar '(' response.toList))

/-- `np.array(split_values, dtype=float)`: converts every token with
`float()`; any unparseable token raises `ValueError` (modelled as `none`,
caught by the surrounding `try/except`). -/
def npArrayFloat (tokens : List (List Char)) : Option (List PyFloat) :=
  tokens.mapM pyFloatOfChars

/-- Group a flat list of values into consecutive triples, dropping a
trailing incomplete group (never reached under the length guard). -/
def chunk3 : List PyFloat → List PVec3
  | x :: y :: z :: rest => ⟨x, y, z⟩ :: chunk3 rest
  | _ => []

/-- `reshape(-1, 3)`: succeeds exactly when the number of values is a
multiple of three (numpy raises `ValueError` otherwise, caught by the
surrounding `try/except`), and yields the rows. -/
def npReshape3 (vals : List PyFloat) : Option (List PVec3) :=
  if vals.length % 3 = 0 then some (chunk3 vals) else none

/-- `_nl_to_numpy` (`nav_plugin.py` lines 106-138), applied to the
collaborator's response string: the sentinel `"None"` yields no
coordinates; otherwise parentheses are removed, the string is split on
commas, the tokens are converted to floats and reshaped into rows of
three, and rows 0 and 1 are returned.  Every failure inside the `try`
block (`ValueError` from `float`, `ValueError` from `reshape`,
`IndexError` from accessing row 0 or row 1) is caught and mapped to the
no-coordinates outcome, modelled by the `Option` bind. -/
def nlToNumpy (response : String) : Option (PVec3 × PVec3) :=
  if response = "None" then none
  else do
    let vals ← npArrayFloat (navTokens response)
    let rows ← npReshape3 vals
    let r0 ← rows.get? 0
    let r1 ← rows.get? 1
    pure (r0, r1)

/-- The extraction-failure fallback message of
`get_actual_distance_from_query` and
`get_straight_line_distance_from_query`. -/
def EXTRACTION_FAILED_MSG : String :=
  "The query does not contain information about the objects' positions or the positions could not be parsed."

/-- The not-navigable message of `_get_navigable_distance`. -/
def NOT_NAVIGABLE_MSG : String :=
  "The path between specified objects is not navigable considering obstacles."

/-- The distance message template, instantiated with the text rendering of
the distance value. -/
def distanceMsg (value : String) : String :=
  "The distance between specified points is " ++ value ++ " meters."

/-- Modelled from the spec: the text rendering `str(float)` used by the
f-strings of `nav_plugin.py` is Python library code outside this
repository.  Finite values are rendered as their exact rational (Python
prints a decimal expansion; no claim depends on the digits), non-finite
values as Python prints them. -/
def pyFloatRepr : PyFloat → String
  | .finite q => toString q
  | .nan => "nan"
  | .inf => "inf"
  | .ninf => "-inf"

/-- The state of a `NavPlugin` instance: the attributes assigned in
`__init__` (`nav_plugin.py` lines 45-47).  `vertices`/`faces` hold the
navigation mesh loaded by `geodesic.read_mesh_from_file`; positions are
carried over `ℚ` in the exact-geometry model. -/
structure NavPlugin where
  vertices : List (ℚ × ℚ × ℚ)
  faces : List (ℕ × ℕ × ℕ)
  visDirpath : Option String
deriving DecidableEq, Repr

/-- `NavPlugin.__init__`: stores the mesh returned by the (external)
`geodesic.read_mesh_from_file` together with the visualization directory. -/
def NavPlugin.init (mesh : List (ℚ × ℚ × ℚ) × List (ℕ × ℕ × ℕ))
    (visDirpath : Option String) : NavPlugin :=
  ⟨mesh.1, mesh.2, visDirpath⟩

/-- A failure raised by the visualizer (`visualize_navmesh_3d` delegates to
plotly and file output, either of which may raise). -/
inductive VisFailure where
  | err
deriving DecidableEq, Repr

/-- The observable content of one `visualize_navmesh_3d` invocation
performed by `_get_navigable_distance` (lines 187-200): the output
filename, the path polyline handed over, and the six labelled, coloured
marker points. -/
structure VisEvent where
  filename : String
  waypoints : Option (List PVec3)
  markers : List (String × PVec3 × String)
deriving DecidableEq, Repr

/-- Modelled from the spec: `str(np.round(x, 2))` used for the
visualization filename (line 196-197) is numpy library code outside this
repository; rounding to two decimals is modelled as round-half-up on the
exact rational.  No claim depends on the rendered digits. -/
def pyRound2Repr : PyFloat → String
  | .finite q => toString ((⌊q * 100 + 1 / 2⌋ : ℚ) / 100)
  | .nan => "nan"
  | .inf => "inf"
  | .ninf => "-inf"

/-- The visualization filename `f"{start_str}_{goal_str}.html"` built at
lines 196-198. -/
def visFilename (dirpath : String) (start goal : PVec3) : String :=
  let startStr := pyRound2Repr start.x ++ "-" ++ pyRound2Repr start.y ++ "-" ++ pyRound2Repr start.z
  let goalStr := pyRound2Repr goal.x ++ "-" ++ pyRound2Repr goal.y ++ "-" ++ pyRound2Repr goal.z
  dirpath ++ "/" ++ startStr ++ "_" ++ goalStr ++ ".html"

/-- The external collaborators reached from `NavPlugin`'s methods.  Each
field stands for library or service code outside this repository:

* `getResponse q` — `self._llm_chat.get_response(NAV_SYSTEM_PROMPT, q)`
  (the `AbstractLlmChat` implementation; the system prompt is the fixed
  constant `NAV_SYSTEM_PROMPT`, so the response is a function of the query);
* `snap p` — `self._snap_to_closest_vertex(p)` as invoked from the query
  pipeline on parsed (float-world) points, returning the closest surface
  point, the closest vertex and its index; its internals are verified
  separately in the exact-geometry model below;
* `geodesicDistance i j` —
  `PyGeodesicAlgorithmExact(...).geodesicDistance(i, j)` from the external
  `pygeodesic` library: a distance and an optional waypoint polyline
  (`none` models a `None` path, `some []` an empty array);
* `visualize ev` — the plotly/file-output body of `visualize_navmesh_3d`,
  which may raise. -/
structure NavExternals where
  getResponse : String → String
  snap : PVec3 → PVec3 × PVec3 × ℕ
  geodesicDistance : ℕ → ℕ → PyFloat × Option (List PVec3)
  visualize : VisEvent → Except VisFailure Unit

/-- Response selection of `_get_navigable_distance` (lines 175-185): the
response starts as the not-navigable message and is replaced by the
distance message exactly when the solver returned a non-`None`, non-empty
path (`if path is not None and path.size != 0`, line 184).  The method has
no `try/except`, so a visualizer failure later escapes as the method's
outcome; the pipeline functions below return that outcome, the list of
visualizer invocations performed, and the plugin state after the call
(the method assigns no attribute, so the state returned is the state
received). -/
def navResponse (dist : PyFloat) (path : Option (List PVec3)) : String :=
  match path with
  | some waypoints =>
      if waypoints ≠ [] then distanceMsg (pyFloatRepr dist) else NOT_NAVIGABLE_MSG
  | none => NOT_NAVIGABLE_MSG

/-- `_get_navigable_distance` (`nav_plugin.py` lines 158-202): snap both
points, solve, choose the response with `navResponse`, then — if a
visualization directory was configured — build the marker dictionary and
invoke `visualize_navmesh_3d`. -/
def navigableDistanceRun (p : NavPlugin) (ext : NavExternals)
    (start goal : PVec3) :
    Except VisFailure String × List VisEvent × NavPlugin :=
  let s := ext.snap start
  let g := ext.snap goal
  let closestS := s.1
  let closestVS := s.2.1
  let vidS := s.2.2
  let closestG := g.1
  let closestVG := g.2.1
  let vidG := g.2.2
  let dp := ext.geodesicDistance vidS vidG
  let dist := dp.1
  let path := dp.2
  let response := navResponse dist path
  match p.visDirpath with
  | none => (.ok response, [], p)
  | some dirpath =>
      let ev : VisEvent :=
        { filename := visFilename dirpath start goal
          waypoints := path
          markers :=
            [("start", start, "blue"),
             ("goal", goal, "green"),
             ("closest_start", closestS, "darkblue"),
             ("closest_goal", closestG, "darkgreen"),
             ("closest_v_start", closestVS, "lightblue"),
             ("closest_v_goal", closestVG, "lightgreen")] }
      match ext.visualize ev with
      | .ok _ => (.ok response, [ev], p)
      | .error e => (.error e, [ev], p)

/-- `get_actual_distance_from_query` (`nav_plugin.py` lines 49-75):
extracts the two positions from the LLM response; if both were obtained it
delegates to `_get_navigable_distance`, otherwise it returns the
extraction-failure fallback message. -/
def getActualDistanceFromQuery (p : NavPlugin) (ext : NavExternals)
    (naturalLanguageDescr : String) :
    Except VisFailure String × List VisEvent × NavPlugin :=
  match nlToNumpy (ext.getResponse naturalLanguageDescr) with
  | some (start, goal) => navigableDistanceRun p ext start goal
  | none => (.ok EXTRACTION_FAILED_MSG, [], p)

/-- Modelled from the spec: `np.linalg.norm(goal - start)` in
`get_straight_line_distance_from_query` is numpy library code outside this
repository; the straight-line distance value is treated as an opaque
function of the two points, supplied here as a parameter.  (The reported
value plays no role in any claim; only the message shape does.) -/
def straightLineResponse (norm : PVec3 → PVec3 → PyFloat)
    (start goal : PVec3) : String :=
  distanceMsg (pyFloatRepr (norm start goal))

/-- `get_straight_line_distance_from_query` (`nav_plugin.py` lines 77-104):
extracts the two positions from the LLM response; if both were obtained it
reports the Euclidean norm of their difference, otherwise the
extraction-failure fallback message.  The method performs no visualization
and assigns no attribute. -/
def getStraightLineDistanceFromQuery (p : NavPlugin) (ext : NavExternals)
    (norm : PVec3 → PVec3 → PyFloat) (naturalLanguageDescr : String) :
    String × NavPlugin :=
  match nlToNumpy (ext.getResponse naturalLanguageDescr) with
  | some (start, goal) => (straightLineResponse norm start goal, p)
  | none => (EXTRACTION_FAILED_MSG, p)

/-- A 3D position with exact rational coordinates, for the geometry model
of snapping. -/
structure Vec3 where
  x : ℚ
  y : ℚ
  z : ℚ
deriving DecidableEq, Repr

/-- Componentwise difference. -/
def Vec3.sub (u v : Vec3) : Vec3 := ⟨u.x - v.x, u.y - v.y, u.z - v.z⟩

/-- Componentwise sum. -/
def Vec3.add (u v : Vec3) : Vec3 := ⟨u.x + v.x, u.y + v.y, u.z + v.z⟩

/-- Scalar multiple. -/
def Vec3.smul (c : ℚ) (u : Vec3) : Vec3 := ⟨c * u.x, c * u.y, c * u.z⟩

/-- Dot product. -/
def Vec3.dot (u v : Vec3) : ℚ := u.x * v.x + u.y * v.y + u.z * v.z

/-- Cross product (used only in proofs, for the Lagrange identity). -/
def Vec3.cross (u v : Vec3) : Vec3 :=
  ⟨u.y * v.z - u.z * v.y, u.z * v.x - u.x * v.z, u.x * v.y - u.y * v.x⟩

/-- Squared Euclidean distance.  Comparisons and ties between Euclidean
distances are exactly comparisons and ties between their squares, so the
model never needs the (irrational) square root. -/
def sqDist (u v : Vec3) : ℚ := (u.sub v).dot (u.sub v)

/-- Modelled from the spec: the closest point of a triangle to a query
point (spec section 4.2, "evaluate the point-to-triangle distance for
every triangle ... and keep the minimum"); in the source this computation
happens inside `igl.signed_distance`, an external library.  The model is
the classical Voronoi-region case analysis: vertex regions, edge regions,
then the interior, each region yielding the orthogonal projection onto the
corresponding feature. -/
def closestPtOnTriangle (p a b c : Vec3) : Vec3 :=
  let ab := b.sub a
  let ac := c.sub a
  let ap := p.sub a
  let d1 := ab.dot ap
  let d2 := ac.dot ap
  if d1 ≤ 0 ∧ d2 ≤ 0 then a
  else
    let bp := p.sub b
    let d3 := ab.dot bp
    let d4 := ac.dot bp
    if 0 ≤ d3 ∧ d4 ≤ d3 then b
    else
      let vc := d1 * d4 - d3 * d2
      if vc ≤ 0 ∧ 0 ≤ d1 ∧ d3 ≤ 0 then a.add (Vec3.smul (d1 / (d1 - d3)) ab)
      else
        let cp := p.sub c
        let d5 := ab.dot cp
        let d6 := ac.dot cp
        if 0 ≤ d6 ∧ d5 ≤ d6 then c
        else
          let vb := d5 * d2 - d1 * d6
          if vb ≤ 0 ∧ 0 ≤ d2 ∧ d6 ≤ 0 then a.add (Vec3.smul (d2 / (d2 - d6)) ac)
          else
            let va := d3 * d6 - d5 * d4
            if va ≤ 0 ∧ 0 ≤ d4 - d3 ∧ 0 ≤ d5 - d6 then
              b.add (Vec3.smul ((d4 - d3) / ((d4 - d3) + (d5 - d6))) (c.sub b))
            else
              let denom := 1 / (va + vb + vc)
              (a.add (Vec3.smul (vb * denom) ab)).add (Vec3.smul (vc * denom) ac)

/-- The zero vector, used as the out-of-range default for list indexing
(the Python code never indexes out of range under the mesh invariant). -/
def vzero : Vec3 := ⟨0, 0, 0⟩

/-- The rational-world mesh as stored by the plugin, viewed as `Vec3`s. -/
def meshVertices (p : NavPlugin) : List Vec3 :=
  p.vertices.map (fun v => ⟨v.1, v.2.1, v.2.2⟩)

/-- The three corner positions a face refers to. -/
def faceCorners (vs : List Vec3) (f : ℕ × ℕ × ℕ) : Vec3 × Vec3 × Vec3 :=
  (vs.getD f.1 vzero, vs.getD f.2.1 vzero, vs.getD f.2.2 vzero)

/-- Closest point of one face of the mesh to `p`. -/
def closestPtOnFace (vs : List Vec3) (p : Vec3) (f : ℕ × ℕ × ℕ) : Vec3 :=
  let corners := faceCorners vs f
  closestPtOnTriangle p corners.1 corners.2.1 corners.2.2

/-- Fold of the minimum-distance surface point over the remaining faces,
carrying the best squared distance and best point so far; a strictly
smaller distance is required to replace the incumbent, so exact ties keep
the earliest (lowest-index) face. -/
def locateBest (vs : List Vec3) (p : Vec3) :
    List (ℕ × ℕ × ℕ) → ℚ × Vec3 → ℚ × Vec3
  | [], best => best
  | f :: rest, best =>
      let cand := closestPtOnFace vs p f
      let d := sqDist cand p
      if d < best.1 then locateBest vs p rest (d, cand)
      else locateBest vs p rest best

/-- Modelled from the spec: the nearest-surface locator (spec section 4.2)
realised in the source by `igl.signed_distance`, an external library:
the closest point over all faces, ties broken by lowest face index.  On an
empty face list (excluded by the spec's `EmptyMeshError`) it returns the
query point itself. -/
def locateClosestPoint (vs : List Vec3) (fs : List (ℕ × ℕ × ℕ))
    (p : Vec3) : Vec3 :=
  match fs with
  | [] => p
  | f :: rest =>
      (locateBest vs p rest (sqDist (closestPtOnFace vs p f) p, closestPtOnFace vs p f)).2

/-- The minimum of a list of rationals under `foldl min` (`0` on the empty
list, where `np.min`/`np.argmin` would raise). -/
def listMinD : List ℚ → ℚ
  | [] => 0
  | x :: xs => xs.foldl min x

/-- `np.argmin`: index of the first occurrence of the minimum value. -/
def argminQ (l : List ℚ) : ℕ :=
  l.findIdx (fun x => x = listMinD l)

/-- `_snap_to_closest_vertex` (`nav_plugin.py` lines 140-156), in the
exact-geometry model, parameterised by the closest-surface-point routine
`csp` (the `igl.signed_distance` call of line 152): compute the closest
surface point, then the Euclidean distance from it to every vertex
(line 153), and take the index of the minimum (`np.argmin`, line 154).
Returns the surface point, the selected vertex and its index. -/
def snapToClosestVertex (csp : List Vec3 → List (ℕ × ℕ × ℕ) → Vec3 → Vec3)
    (vs : List Vec3) (fs : List (ℕ × ℕ × ℕ)) (point : Vec3) :
    Vec3 × Vec3 × ℕ :=
  let closestPoint := csp vs fs point
  let distances := vs.map (fun v => sqDist v closestPoint)
  let closestVertexIndex := argminQ distances
  (closestPoint, vs.getD closestVertexIndex vzero, closestVertexIndex)

/-- The surface point returned by snapping. -/
def snapCP (csp : List Vec3 → List (ℕ × ℕ × ℕ) → Vec3 → Vec3)
    (vs : List Vec3) (fs : List (ℕ × ℕ × ℕ)) (point : Vec3) : Vec3 :=
  (snapToClosestVertex csp vs fs point).1

/-- The vertex index returned by snapping. -/
def snapIdx (csp : List Vec3 → List (ℕ × ℕ × ℕ) → Vec3 → Vec3)
    (vs : List Vec3) (fs : List (ℕ × ℕ × ℕ)) (point : Vec3) : ℕ :=
  (snapToClosestVertex csp vs fs point).2.2

/-- The vertex position returned by snapping. -/
def snapVert (csp : List Vec3 → List (ℕ × ℕ × ℕ) → Vec3 → Vec3)
    (vs : List Vec3) (fs : List (ℕ × ℕ × ℕ)) (point : Vec3) : Vec3 :=
  (snapToClosestVertex csp vs fs point).2.1

/-- What C6 asserts of `_snap_to_closest_vertex` at given arguments: the
returned index is in range, the returned vertex is the vertex at that
index, the reference point of every distance comparison is the
surface-projected closest point `csp vs fs point` (not the raw input),
the selected vertex's distance to it is minimal over all vertices, and
any vertex at exactly the same distance has an index no smaller than the
selected one. -/
def SnapArgminSpec (csp : List Vec3 → List (ℕ × ℕ × ℕ) → Vec3 → Vec3)
    (vs : List Vec3) (fs : List (ℕ × ℕ × ℕ)) (point : Vec3) : Prop :=
  snapIdx csp vs fs point < vs.length ∧
  snapCP csp vs fs point = csp vs fs point ∧
  snapVert csp vs fs point = vs.getD (snapIdx csp vs fs point) vzero ∧
  (∀ j, j < vs.length →
    sqDist (vs.getD (snapIdx csp vs fs point) vzero) (snapCP csp vs fs point) ≤
      sqDist (vs.getD j vzero) (snapCP csp vs fs point)) ∧
  (∀ j, j < vs.length →
    sqDist (vs.getD j vzero) (snapCP csp vs fs point) =
      sqDist (vs.getD (snapIdx csp vs fs point) vzero) (snapCP csp vs fs point) →
    snapIdx csp vs fs point ≤ j)

/-- What C7, as amended, asserts of the locate/snap operation (with the
spec-modelled surface locator `locateClosestPoint`): the returned vertex
index is a valid index into the vertex list, and for a query point
coincident with a vertex `v` that is a corner of a face `f` whose three
corner positions are pairwise distinct, the returned surface point is the
query point itself and the returned vertex coincides with it — both snap
offsets are zero.  (Unqualified over all vertices the property fails: a
vertex referenced by no face snaps elsewhere, see the counterexample.) -/
def SnapLocateSpec (vs : List Vec3) (fs : List (ℕ × ℕ × ℕ))
    (point : Vec3) : Prop :=
  snapIdx locateClosestPoint vs fs point < vs.length ∧
  (∀ v f, f ∈ fs → (v = f.1 ∨ v = f.2.1 ∨ v = f.2.2) →
    point = vs.getD v vzero →
    (vs.getD f.1 vzero ≠ vs.getD f.2.1 vzero ∧
     vs.getD f.1 vzero ≠ vs.getD f.2.2 vzero ∧
     vs.getD f.2.1 vzero ≠ vs.getD f.2.2 vzero) →
    snapCP locateClosestPoint vs fs point = point ∧
    vs.getD (snapIdx locateClosestPoint vs fs point) vzero = point ∧
    sqDist (snapCP locateClosestPoint vs fs point) point = 0 ∧
    sqDist (snapVert locateClosestPoint vs fs point)
      (snapCP locateClosestPoint vs fs point) = 0)

/-- Example closest-surface-point routine (identity projection), for
witnesses that quantify over the external `igl.signed_distance`. -/
def exCsp : List Vec3 → List (ℕ × ℕ × ℕ) → Vec3 → Vec3 := fun _ _ q => q

/-- Example vertex list for witnesses. -/
def exVs : List Vec3 := [⟨0, 0, 0⟩, ⟨3, 0, 0⟩]

/-- Example query point for witnesses. -/
def exPoint : Vec3 := ⟨2, 0, 0⟩

/-- Example mesh vertices for the locate witness: a unit right triangle. -/
def exVs7 : List Vec3 := [⟨0, 0, 0⟩, ⟨1, 0, 0⟩, ⟨0, 1, 0⟩]

/-- Example mesh faces for the locate witness. -/
def exFs7 : List (ℕ × ℕ × ℕ) := [(0, 1, 2)]

/-- Example mesh vertices for the locate counterexample: the same unit
right triangle plus a fourth vertex that no face references. -/
def exVs8 : List Vec3 := [⟨0, 0, 0⟩, ⟨1, 0, 0⟩, ⟨0, 1, 0⟩, ⟨5, 5, 5⟩]

/-- Example mesh faces for the locate counterexample: only the triangle on
the first three vertices, leaving vertex 3 isolated. -/
def exFs8 : List (ℕ × ℕ × ℕ) := [(0, 1, 2)]

/-- The float-world origin point, for pipeline witnesses. -/
def pvZero : PVec3 := ⟨.finite 0, .finite 0, .finite 0⟩

/-- A float-world point with a NaN component, for the finiteness
counterexample. -/
def pvNaN : PVec3 := ⟨.nan, .finite 0, .finite 0⟩

/-- Example plugin state with visualization disabled. -/
def exPluginNoVis : NavPlugin := ⟨[], [], none⟩

/-- Example plugin state with a visualization directory configured. -/
def exPluginVis : NavPlugin := ⟨[], [], some "vis"⟩

/-- Example externals used by witnesses and counterexamples: the LLM
responds with the fixed string `resp`, snapping is the identity projection
with vertex index 0, and the solver and visualizer outcomes are as
given. -/
def exExt (resp : String) (geo : PyFloat × Option (List PVec3))
    (vis : Except VisFailure Unit) : NavExternals :=
  { getResponse := fun _ => resp
    snap := fun q => (q, q, 0)
    geodesicDistance := fun _ _ => geo
    visualize := fun _ => vis }

/-- Example solver outcome with a navigable single-waypoint path. -/
def exPathGeo : PyFloat × Option (List PVec3) := (.finite 5, some [pvZero])

/-- Example straight-line norm for pipeline witnesses. -/
def exNorm : PVec3 → PVec3 → PyFloat := fun _ _ => .finite 0

/-- What C10 asserts of `_nl_to_numpy` at a non-sentinel response: parsing
succeeds exactly when, after removing parentheses, the response splits on
commas into float-parseable tokens whose count is a multiple of three and
at least six (i.e. 3k values with k at least 2); and whenever the parsed
values form at least two triples, the result is exactly the first two
triples, any further values being silently ignored. -/
def NlToNumpySpec (resp : String) : Prop :=
  ((nlToNumpy resp).isSome ↔
    ((∀ t ∈ navTokens resp, (pyFloatOfChars t).isSome) ∧
      (navTokens resp).length % 3 = 0 ∧ 6 ≤ (navTokens resp).length)) ∧
  (∀ v0 v1 v2 v3 v4 v5 rest,
    npArrayFloat (navTokens resp) = some (v0 :: v1 :: v2 :: v3 :: v4 :: v5 :: rest) →
    rest.length % 3 = 0 →
    nlToNumpy resp = some (⟨v0, v1, v2⟩, ⟨v3, v4, v5⟩))

theorem foldl_min_le_init (xs : List ℚ) (a : ℚ) : xs.foldl min a ≤ a := by
  induction xs generalizing a with
  | nil => simp
  | cons x xs ih =>
      simp only [List.foldl_cons]
      exact le_trans (ih (min a x)) (min_le_left a x)

theorem foldl_min_le_mem {xs : List ℚ} {b : ℚ} (a : ℚ) (h : b ∈ xs) :
    xs.foldl min a ≤ b := by
  induction xs generalizing a with
  | nil => cases h
  | cons x xs ih =>
      simp only [List.foldl_cons]
      rcases List.mem_cons.mp h with rfl | h
      · exact le_trans (foldl_min_le_init xs _) (min_le_right a b)
      · exact ih _ h

theorem foldl_min_mem (xs : List ℚ) (a : ℚ) :
    xs.foldl min a = a ∨ xs.foldl min a ∈ xs := by
  induction xs generalizing a with
  | nil => left; rfl
  | cons x xs ih =>
      simp only [List.foldl_cons]
      rcases ih (min a x) with h | h
      · rcases min_choice a x with h2 | h2
        · left; rw [h, h2]
        · right; rw [h, h2]; exact List.mem_cons_self x xs
      · right; exact List.mem_cons_of_mem x h

theorem listMinD_le {l : List ℚ} {a : ℚ} (h : a ∈ l) : listMinD l ≤ a := by
  cases l with
  | nil => cases h
  | cons x xs =>
      rcases List.mem_cons.mp h with rfl | h
      · exact foldl_min_le_init xs a
      · exact foldl_min_le_mem x h

theorem listMinD_mem {l : List ℚ} (h : l ≠ []) : listMinD l ∈ l := by
  cases l with
  | nil => exact absurd rfl h
  | cons x xs =>
      rcases foldl_min_mem xs x with h2 | h2
      · rw [listMinD, h2]; exact List.mem_cons_self x xs
      · exact List.mem_cons_of_mem x h2

theorem argminQ_lt_length {l : List ℚ} (h : l ≠ []) : argminQ l < l.length := by
  apply List.findIdx_lt_length_of_exists
  exact ⟨listMinD l, listMinD_mem h, by simp⟩

theorem argminQ_getElem {l : List ℚ} (h : argminQ l < l.length) :
    l[argminQ l] = listMinD l := by
  have h2 := @List.findIdx_getElem _ (fun x => decide (x = listMinD l)) l h
  simpa using h2

theorem argminQ_first {l : List ℚ} {j : ℕ} (hj : j < l.length)
    (hlt : j < argminQ l) : l[j] ≠ listMinD l := by
  have h2 := @List.not_of_lt_findIdx _ (fun x => decide (x = listMinD l)) l j hlt
  simpa using h2

theorem snapArgmin_holds
    (csp : List Vec3 → List (ℕ × ℕ × ℕ) → Vec3 → Vec3)
    (vs : List Vec3) (fs : List (ℕ × ℕ × ℕ)) (point : Vec3)
    (hne : vs ≠ []) : SnapArgminSpec csp vs fs point := by
  unfold SnapArgminSpec
  have hcp : snapCP csp vs fs point = csp vs fs point := rfl
  set cp := csp vs fs point with hcpdef
  set distances := vs.map (fun v => sqDist v cp) with hdist
  have hdne : distances ≠ [] := by
    intro h
    exact hne (List.map_eq_nil_iff.mp (hdist ▸ h))
  have hlen : distances.length = vs.length := by
    rw [hdist, List.length_map]
  have hidx : snapIdx csp vs fs point = argminQ distances := rfl
  have hargle : argminQ distances < distances.length := argminQ_lt_length hdne
  have harglt : argminQ distances < vs.length := hlen ▸ hargle
  have hdget : ∀ (j : ℕ) (hj : j < vs.length),
      distances.get ⟨j, by rw [hlen]; exact hj⟩ = sqDist (vs.getD j vzero) cp := by
    intro j hj
    have h1 : distances.get ⟨j, by rw [hlen]; exact hj⟩ = sqDist (vs.get ⟨j, hj⟩) cp := by
      rw [List.get_eq_getElem, List.get_eq_getElem]
      exact List.getElem_map _
    rw [h1, List.getD_eq_getElem vs vzero hj, List.get_eq_getElem]
  have hminval : sqDist (vs.getD (argminQ distances) vzero) cp = listMinD distances := by
    rw [← hdget (argminQ distances) harglt]
    rw [List.get_eq_getElem]
    exact argminQ_getElem hargle
  refine ⟨hidx ▸ harglt, hcp, rfl, ?_, ?_⟩
  · intro j hj
    rw [hcp, hidx, hminval, ← hdget j hj]
    rw [List.get_eq_getElem]
    exact listMinD_le (List.getElem_mem _)
  · intro j hj heq
    rw [hcp] at heq
    rw [hidx] at heq ⊢
    by_contra hcon
    push_neg at hcon
    have hjd : j < distances.length := by rw [hlen]; exact hj
    have h2 := argminQ_first hjd hcon
    rw [← List.get_eq_getElem distances ⟨j, hjd⟩] at h2
    rw [hdget j hj, heq, hminval] at h2
    exact h2 rfl

/-- C6: for every query point (and every closest-surface-point routine),
`_snap_to_closest_vertex` measures squared Euclidean distance from the
surface-projected closest point — not from the raw input point — to every
vertex and selects the minimum, breaking exact-equidistance ties by the
lowest vertex index: the returned index is in range, the returned vertex
is the vertex at that index, the reference point of all distance
comparisons is the projection `csp vs fs point`, the selected vertex's
distance to it is minimal over all vertices, and any vertex achieving the
same distance has an index no smaller than the selected one. -/
theorem snap_selects_closest_vertex_to_projected_point
    (csp : List Vec3 → List (ℕ × ℕ × ℕ) → Vec3 → Vec3)
    (vs : List Vec3) (fs : List (ℕ × ℕ × ℕ)) (point : Vec3)
    (hne : vs ≠ []) : SnapArgminSpec csp vs fs point :=
  snapArgmin_holds csp vs fs point hne

/-- Witness for C6: the argmin selection evaluated on a concrete
two-vertex list and a concrete projection routine. -/
theorem snap_selects_closest_vertex_witness :
    exVs ≠ [] ∧ SnapArgminSpec exCsp exVs [] exPoint :=
  ⟨by decide,
   snap_selects_closest_vertex_to_projected_point exCsp exVs [] exPoint (by decide)⟩

theorem navRun_state (p : NavPlugin) (ext : NavExternals) (start goal : PVec3) :
    (navigableDistanceRun p ext start goal).2.2 = p := by
  unfold navigableDistanceRun
  dsimp only
  split
  · rfl
  · split <;> rfl

theorem navRun_ok_response (p : NavPlugin) (ext : NavExternals)
    (start goal : PVec3) {s : String}
    (h : (navigableDistanceRun p ext start goal).1 = .ok s) :
    s = navResponse (ext.geodesicDistance (ext.snap start).2.2 (ext.snap goal).2.2).1
          (ext.geodesicDistance (ext.snap start).2.2 (ext.snap goal).2.2).2 := by
  unfold navigableDistanceRun at h
  dsimp only at h
  split at h
  · exact (Except.ok.inj h).symm
  · split at h
    · exact (Except.ok.inj h).symm
    · exact absurd h (by simp)

theorem navResponse_shape (dist : PyFloat) (path : Option (List PVec3)) :
    navResponse dist path = NOT_NAVIGABLE_MSG ∨
    ∃ d, navResponse dist path = distanceMsg (pyFloatRepr d) := by
  unfold navResponse
  cases path with
  | none => left; rfl
  | some w =>
      cases w with
      | nil => left; simp
      | cons a l => right; exact ⟨dist, by simp⟩

/-- C1: whenever the collaborator's response to the coordinate-extraction
call is the sentinel `"None"` or cannot be parsed into two coordinate
triples, both `get_actual_distance_from_query` and
`get_straight_line_distance_from_query` return the fixed
extraction-failure fallback message as an ordinary value — no exception
escapes, no visualizer call is made, and the plugin state is unchanged. -/
theorem extraction_failure_returns_fallback
    (p : NavPlugin) (ext : NavExternals) (norm : PVec3 → PVec3 → PyFloat)
    (query : String)
    (h : ext.getResponse query = "None" ∨ nlToNumpy (ext.getResponse query) = none) :
    getActualDistanceFromQuery p ext query = (.ok EXTRACTION_FAILED_MSG, [], p) ∧
    getStraightLineDistanceFromQuery p ext norm query = (EXTRACTION_FAILED_MSG, p) := by
  have hn : nlToNumpy (ext.getResponse query) = none := by
    rcases h with h | h
    · simp [nlToNumpy, h]
    · exact h
  constructor
  · simp [getActualDistanceFromQuery, hn]
  · simp [getStraightLineDistanceFromQuery, hn]

/-- Witness for C1: a concrete unparseable collaborator response. -/
theorem extraction_failure_returns_fallback_witness :
    (((exExt "garbage" exPathGeo (.ok ())).getResponse "q" = "None") ∨
      nlToNumpy ((exExt "garbage" exPathGeo (.ok ())).getResponse "q") = none) ∧
    (getActualDistanceFromQuery exPluginNoVis (exExt "garbage" exPathGeo (.ok ())) "q" =
        (.ok EXTRACTION_FAILED_MSG, [], exPluginNoVis) ∧
      getStraightLineDistanceFromQuery exPluginNoVis
          (exExt "garbage" exPathGeo (.ok ())) exNorm "q" =
        (EXTRACTION_FAILED_MSG, exPluginNoVis)) :=
  ⟨Or.inr (by decide),
   extraction_failure_returns_fallback exPluginNoVis (exExt "garbage" exPathGeo (.ok ()))
     exNorm "q" (Or.inr (by decide))⟩

/-- C5: every result actually returned by `get_actual_distance_from_query`
is one of exactly three fixed message templates: the distance message, the
not-navigable message, or the extraction-failure fallback. -/
theorem actual_distance_three_templates (p : NavPlugin) (ext : NavExternals)
    (query s : String)
    (h : (getActualDistanceFromQuery p ext query).1 = .ok s) :
    s = EXTRACTION_FAILED_MSG ∨ s = NOT_NAVIGABLE_MSG ∨
    ∃ d : PyFloat, s = distanceMsg (pyFloatRepr d) := by
  unfold getActualDistanceFromQuery at h
  cases hnl : nlToNumpy (ext.getResponse query) with
  | none =>
      rw [hnl] at h
      left
      exact (Except.ok.inj h).symm
  | some pq =>
      rw [hnl] at h
      have hs := navRun_ok_response p ext pq.1 pq.2 h
      rcases navResponse_shape
          (ext.geodesicDistance (ext.snap pq.1).2.2 (ext.snap pq.2).2.2).1
          (ext.geodesicDistance (ext.snap pq.1).2.2 (ext.snap pq.2).2.2).2 with h1 | ⟨d, h1⟩
      · right; left; rw [hs, h1]
      · right; right; exact ⟨d, by rw [hs, h1]⟩

/-- Witness for C5: a concrete successful query returning the distance
template. -/
theorem actual_distance_three_templates_witness :
    ((getActualDistanceFromQuery exPluginNoVis
        (exExt "(1,2,3),(4,5,6)" exPathGeo (.ok ())) "q").1 =
      .ok (distanceMsg (pyFloatRepr (.finite 5)))) ∧
    (distanceMsg (pyFloatRepr (PyFloat.finite 5)) = EXTRACTION_FAILED_MSG ∨
      distanceMsg (pyFloatRepr (PyFloat.finite 5)) = NOT_NAVIGABLE_MSG ∨
      ∃ d : PyFloat, distanceMsg (pyFloatRepr (PyFloat.finite 5)) = distanceMsg (pyFloatRepr d)) :=
  ⟨rfl,
   actual_distance_three_templates exPluginNoVis
     (exExt "(1,2,3),(4,5,6)" exPathGeo (.ok ())) "q"
     (distanceMsg (pyFloatRepr (PyFloat.finite 5))) rfl⟩

theorem getActual_state (p : NavPlugin) (ext : NavExternals) (query : String) :
    (getActualDistanceFromQuery p ext query).2.2 = p := by
  unfold getActualDistanceFromQuery
  cases nlToNumpy (ext.getResponse query) with
  | none => rfl
  | some pq => exact navRun_state p ext pq.1 pq.2

theorem getStraight_state (p : NavPlugin) (ext : NavExternals)
    (norm : PVec3 → PVec3 → PyFloat) (query : String) :
    (getStraightLineDistanceFromQuery p ext norm query).2 = p := by
  unfold getStraightLineDistanceFromQuery
  cases nlToNumpy (ext.getResponse query) with
  | none => rfl
  | some pq => rfl

/-- C9: the mesh's vertex and face arrays are set once at construction
(`__init__` stores the arrays returned by the mesh loader) and no query
operation mutates them: the plugin state after
`get_actual_distance_from_query`, `get_straight_line_distance_from_query`
and `_get_navigable_distance` carries exactly the vertices and faces it
started with. -/
theorem mesh_set_once_never_mutated
    (mesh : List (ℚ × ℚ × ℚ) × List (ℕ × ℕ × ℕ)) (visDirpath : Option String)
    (p : NavPlugin) (ext : NavExternals) (norm : PVec3 → PVec3 → PyFloat)
    (query : String) (start goal : PVec3) :
    ((NavPlugin.init mesh visDirpath).vertices = mesh.1 ∧
      (NavPlugin.init mesh visDirpath).faces = mesh.2) ∧
    ((getActualDistanceFromQuery p ext query).2.2.vertices = p.vertices ∧
      (getActualDistanceFromQuery p ext query).2.2.faces = p.faces) ∧
    ((getStraightLineDistanceFromQuery p ext norm query).2.vertices = p.vertices ∧
      (getStraightLineDistanceFromQuery p ext norm query).2.faces = p.faces) ∧
    ((navigableDistanceRun p ext start goal).2.2.vertices = p.vertices ∧
      (navigableDistanceRun p ext start goal).2.2.faces = p.faces) := by
  refine ⟨⟨rfl, rfl⟩, ?_, ?_, ?_⟩
  · rw [getActual_state]; exact ⟨rfl, rfl⟩
  · rw [getStraight_state]; exact ⟨rfl, rfl⟩
  · rw [navRun_state]; exact ⟨rfl, rfl⟩

/-- Counterexample to C2: with a visualization directory configured, the
navigable-distance computation itself performs a visualizer invocation —
the visualization is not left to the caller. -/
theorem implicit_visualization_counterexample :
    exPluginVis.visDirpath = some "vis" ∧
    (navigableDistanceRun exPluginVis (exExt "x" exPathGeo (.ok ())) pvZero pvZero).2.1 ≠ [] :=
  ⟨rfl, by decide⟩

/-- C2 amended: `_get_navigable_distance` is free of visualization side
effects exactly when no visualization directory was configured at
construction; when one is configured, the method itself invokes the
visualizer (one invocation per call), rather than leaving visualization to
the caller. -/
theorem navigable_distance_vis_effects (p : NavPlugin) (ext : NavExternals)
    (start goal : PVec3) :
    (navigableDistanceRun p ext start goal).2.1 = [] ↔ p.visDirpath = none := by
  unfold navigableDistanceRun
  dsimp only
  split
  · next h => simp [h]
  · next d h => cases ext.visualize _ <;> simp [h]

/-- Counterexample to C3: a start point with a NaN coordinate is not
rejected with any `InvalidInput` failure — the query proceeds through
snapping and solving and returns an ordinary distance message. -/
theorem nonfinite_point_not_rejected_counterexample :
    pvNaN.isFinite = false ∧
    (navigableDistanceRun exPluginNoVis (exExt "x" exPathGeo (.ok ())) pvNaN pvZero).1 =
      .ok (distanceMsg (pyFloatRepr (.finite 5))) :=
  ⟨rfl, rfl⟩

/-- C3 amended: `_get_navigable_distance` performs no finiteness
validation: for every pair of query points of which at least one is not a
finite 3-vector, the operation still proceeds to snap both points and
solve between the snapped vertex indices — its outcome is either the
message selected from the solver's output, or a visualizer failure; no
`InvalidInput` failure exists. -/
theorem nonfinite_points_proceed (p : NavPlugin) (ext : NavExternals)
    (start goal : PVec3)
    (h : start.isFinite = false ∨ goal.isFinite = false) :
    (navigableDistanceRun p ext start goal).1 = .error VisFailure.err ∨
    (navigableDistanceRun p ext start goal).1 =
      .ok (navResponse (ext.geodesicDistance (ext.snap start).2.2 (ext.snap goal).2.2).1
             (ext.geodesicDistance (ext.snap start).2.2 (ext.snap goal).2.2).2) := by
  unfold navigableDistanceRun
  dsimp only
  split
  · right; rfl
  · split
    · right; rfl
    · next e hv => left; cases e; rfl

/-- Witness for C3 amended, at a NaN-containing start point. -/
theorem nonfinite_points_proceed_witness :
    (pvNaN.isFinite = false ∨ pvZero.isFinite = false) ∧
    ((navigableDistanceRun exPluginNoVis (exExt "x" exPathGeo (.ok ())) pvNaN pvZero).1 =
        .error VisFailure.err ∨
      (navigableDistanceRun exPluginNoVis (exExt "x" exPathGeo (.ok ())) pvNaN pvZero).1 =
        .ok (navResponse
              ((exExt "x" exPathGeo (.ok ())).geodesicDistance
                ((exExt "x" exPathGeo (.ok ())).snap pvNaN).2.2
                ((exExt "x" exPathGeo (.ok ())).snap pvZero).2.2).1
              ((exExt "x" exPathGeo (.ok ())).geodesicDistance
                ((exExt "x" exPathGeo (.ok ())).snap pvNaN).2.2
                ((exExt "x" exPathGeo (.ok ())).snap pvZero).2.2).2)) :=
  ⟨Or.inl rfl,
   nonfinite_points_proceed exPluginNoVis (exExt "x" exPathGeo (.ok ())) pvNaN pvZero
     (Or.inl rfl)⟩

/-- Counterexample to C4: with a visualization directory configured and a
visualizer that raises, the already-computed distance result is not
returned — the failure propagates out of `_get_navigable_distance`. -/
theorem visualizer_failure_propagates_counterexample :
    exPluginVis.visDirpath = some "vis" ∧
    (navigableDistanceRun exPluginVis (exExt "x" exPathGeo (.error .err)) pvZero pvZero).1 =
      .error VisFailure.err :=
  ⟨rfl, rfl⟩

/-- C4 amended: a failure of the Path Visualizer is propagated, not
swallowed: whenever a visualization directory is configured and the
visualizer raises, `_get_navigable_distance` ends with that failure
instead of returning the distance result it had already computed. -/
theorem visualizer_failure_propagates (p : NavPlugin) (ext : NavExternals)
    (start goal : PVec3) (d : String) (e : VisFailure)
    (hvd : p.visDirpath = some d)
    (hfail : ∀ ev, ext.visualize ev = .error e) :
    (navigableDistanceRun p ext start goal).1 = .error e := by
  unfold navigableDistanceRun
  dsimp only
  rw [hvd]
  dsimp only
  rw [hfail]

/-- Witness for C4 amended, at a concrete always-failing visualizer. -/
theorem visualizer_failure_propagates_witness :
    exPluginVis.visDirpath = some "vis" ∧
    (∀ ev, (exExt "x" exPathGeo (.error .err)).visualize ev = .error VisFailure.err) ∧
    (navigableDistanceRun exPluginVis (exExt "x" exPathGeo (.error .err)) pvZero pvZero).1 =
      .error VisFailure.err :=
  ⟨rfl, fun _ => rfl,
   visualizer_failure_propagates exPluginVis (exExt "x" exPathGeo (.error .err))
     pvZero pvZero "vis" VisFailure.err rfl (fun _ => rfl)⟩

/-- Counterexample to C8: a solver outcome with a `None` path (as for
vertices in disconnected components) and one with an empty path (no path
around obstacles) produce byte-identical results — the two causes of
unreachability are not distinguishable in the returned result. -/
theorem unreachable_causes_indistinguishable_counterexample :
    navigableDistanceRun exPluginNoVis (exExt "x" (.inf, none) (.ok ())) pvZero pvZero =
      navigableDistanceRun exPluginNoVis (exExt "x" (.inf, some []) (.ok ())) pvZero pvZero ∧
    (navigableDistanceRun exPluginNoVis (exExt "x" (.inf, none) (.ok ())) pvZero pvZero).1 =
      .ok NOT_NAVIGABLE_MSG :=
  ⟨rfl, rfl⟩

/-- C8 amended: every no-path solver outcome — a `None` path as well as an
empty path, hence in particular disconnection and obstacle-blocked
queries alike — is rendered as the one fixed not-navigable message; the
implementation does not distinguish the causes of unreachability. -/
theorem no_path_single_message (p : NavPlugin) (ext : NavExternals)
    (start goal : PVec3)
    (h : (ext.geodesicDistance (ext.snap start).2.2 (ext.snap goal).2.2).2 = none ∨
         (ext.geodesicDistance (ext.snap start).2.2 (ext.snap goal).2.2).2 = some [])
    (hvd : p.visDirpath = none) :
    (navigableDistanceRun p ext start goal).1 = .ok NOT_NAVIGABLE_MSG := by
  unfold navigableDistanceRun
  dsimp only
  rw [hvd]
  dsimp only
  rcases h with h | h <;> rw [h] <;> rfl

/-- Witness for C8 amended, at a concrete disconnected-style solver
outcome. -/
theorem no_path_single_message_witness :
    (((exExt "x" (.inf, none) (.ok ())).geodesicDistance
        ((exExt "x" (.inf, none) (.ok ())).snap pvZero).2.2
        ((exExt "x" (.inf, none) (.ok ())).snap pvZero).2.2).2 = none ∨
      ((exExt "x" (.inf, none) (.ok ())).geodesicDistance
        ((exExt "x" (.inf, none) (.ok ())).snap pvZero).2.2
        ((exExt "x" (.inf, none) (.ok ())).snap pvZero).2.2).2 = some []) ∧
    exPluginNoVis.visDirpath = none ∧
    (navigableDistanceRun exPluginNoVis (exExt "x" (.inf, none) (.ok ())) pvZero pvZero).1 =
      .ok NOT_NAVIGABLE_MSG :=
  ⟨Or.inl rfl, rfl,
   no_path_single_message exPluginNoVis (exExt "x" (.inf, none) (.ok ())) pvZero pvZero
     (Or.inl rfl) rfl⟩

theorem npArrayFloat_nil : npArrayFloat [] = some [] := rfl

theorem npArrayFloat_cons (t : List Char) (ts : List (List Char)) :
    npArrayFloat (t :: ts) =
      (pyFloatOfChars t).bind (fun v => (npArrayFloat ts).map (fun vs => v :: vs)) := by
  unfold npArrayFloat
  rw [List.mapM_cons]
  cases hf : pyFloatOfChars t with
  | none => simp [hf]
  | some v =>
      cases ha : ts.mapM pyFloatOfChars with
      | none => simp [hf, ha]
      | some vs => simp [hf, ha]

theorem npArrayFloat_isSome (tokens : List (List Char)) :
    (npArrayFloat tokens).isSome ↔ ∀ t ∈ tokens, (pyFloatOfChars t).isSome := by
  induction tokens with
  | nil => simp [npArrayFloat_nil]
  | cons t ts ih =>
      rw [npArrayFloat_cons]
      constructor
      · intro hs
        cases hf : pyFloatOfChars t with
        | none => rw [hf] at hs; simp at hs
        | some v =>
            rw [hf] at hs
            cases ha : npArrayFloat ts with
            | none => rw [ha] at hs; simp at hs
            | some vs =>
                intro x hx
                rcases List.mem_cons.mp hx with rfl | hx
                · simp [hf]
                · exact (ih.mp (by simp [ha])) x hx
      · intro hall
        have h1 : (pyFloatOfChars t).isSome := hall t (List.mem_cons_self t ts)
        have h2 : (npArrayFloat ts).isSome :=
          ih.mpr (fun x hx => hall x (List.mem_cons_of_mem t hx))
        rcases Option.isSome_iff_exists.mp h1 with ⟨v, hv⟩
        rcases Option.isSome_iff_exists.mp h2 with ⟨vs, hvs⟩
        simp [hv, hvs]

theorem npArrayFloat_length {tokens : List (List Char)} {vals : List PyFloat}
    (h : npArrayFloat tokens = some vals) : vals.length = tokens.length := by
  induction tokens generalizing vals with
  | nil =>
      rw [npArrayFloat_nil] at h
      cases h
      rfl
  | cons t ts ih =>
      rw [npArrayFloat_cons] at h
      cases hf : pyFloatOfChars t with
      | none => rw [hf] at h; simp at h
      | some v =>
          rw [hf] at h
          cases ha : npArrayFloat ts with
          | none => rw [ha] at h; simp at h
          | some vs =>
              rw [ha] at h
              simp at h
              subst h
              simp [ih ha]

theorem chunk3_length (l : List PyFloat) : (chunk3 l).length = l.length / 3 := by
  match l with
  | [] => simp [chunk3]
  | [x] => simp [chunk3]
  | [x, y] => simp [chunk3]
  | x :: y :: z :: rest =>
      have ih := chunk3_length rest
      simp only [chunk3, List.length_cons, ih]
      omega

theorem rows_pair_isSome (rows : List PVec3) :
    ((rows.get? 0).bind
      (fun r0 => (rows.get? 1).bind (fun r1 => some (r0, r1)))).isSome ↔
    2 ≤ rows.length := by
  cases rows with
  | nil => simp
  | cons a t =>
      cases t with
      | nil => simp
      | cons b t2 => simp [List.get?]

/-- C10: for every collaborator response other than the sentinel, the
coordinate parser succeeds exactly when, after removing parentheses, the
response splits on commas into float-parseable values numbering 3k with
k at least 2; when it succeeds it returns only the first two coordinate
triples, silently ignoring any additional triples; a single triple or a
count that is not a multiple of three yields the extraction-failure
outcome instead of raising. -/
theorem nl_to_numpy_parse_characterisation (resp : String)
    (hresp : resp ≠ "None") : NlToNumpySpec resp := by
  have hnl : nlToNumpy resp =
      (npArrayFloat (navTokens resp)).bind (fun vals =>
        (npReshape3 vals).bind (fun rows =>
          (rows.get? 0).bind (fun r0 =>
            (rows.get? 1).bind (fun r1 => some (r0, r1))))) := by
    unfold nlToNumpy
    rw [if_neg hresp]
    rfl
  unfold NlToNumpySpec
  constructor
  · cases ha : npArrayFloat (navTokens resp) with
    | none =>
        rw [hnl, ha]
        simp only [Option.none_bind]
        constructor
        · intro h; exact absurd h (by simp)
        · rintro ⟨hall, -, -⟩
          have hs := (npArrayFloat_isSome (navTokens resp)).mpr hall
          rw [ha] at hs
          exact absurd hs (by simp)
    | some vals =>
        rw [hnl, ha]
        have hlen : vals.length = (navTokens resp).length := npArrayFloat_length ha
        have hall : ∀ t ∈ navTokens resp, (pyFloatOfChars t).isSome :=
          (npArrayFloat_isSome (navTokens resp)).mp (by simp [ha])
        by_cases h3 : vals.length % 3 = 0
        · have hr : npReshape3 vals = some (chunk3 vals) := by
            unfold npReshape3; rw [if_pos h3]
          simp only [Option.some_bind]
          rw [hr]
          simp only [Option.some_bind]
          rw [rows_pair_isSome, chunk3_length]
          constructor
          · intro h6
            refine ⟨hall, ?_, ?_⟩ <;> omega
          · rintro ⟨-, -, h6⟩
            omega
        · have hr : npReshape3 vals = none := by
            unfold npReshape3; rw [if_neg h3]
          simp only [Option.some_bind]
          rw [hr]
          simp only [Option.none_bind]
          constructor
          · intro h; exact absurd h (by simp)
          · rintro ⟨-, hm, -⟩
            rw [← hlen] at hm
            exact absurd hm h3
  · intro v0 v1 v2 v3 v4 v5 rest hvals hrest
    rw [hnl, hvals]
    have h3 : (v0 :: v1 :: v2 :: v3 :: v4 :: v5 :: rest).length % 3 = 0 := by
      simp only [List.length_cons]
      omega
    have hr : npReshape3 (v0 :: v1 :: v2 :: v3 :: v4 :: v5 :: rest) =
        some (⟨v0, v1, v2⟩ :: ⟨v3, v4, v5⟩ :: chunk3 rest) := by
      unfold npReshape3
      rw [if_pos h3]
      rfl
    simp only [Option.some_bind]
    rw [hr]
    simp only [Option.some_bind]
    rfl

/-- Witness for C10 at a concrete three-triple response: parsing succeeds
and the third triple is ignored. -/
theorem nl_to_numpy_parse_characterisation_witness :
    ("(1,2,3),(4,5,6),(7,8,9)" ≠ "None") ∧
    NlToNumpySpec "(1,2,3),(4,5,6),(7,8,9)" :=
  ⟨by decide,
   nl_to_numpy_parse_characterisation "(1,2,3),(4,5,6),(7,8,9)" (by decide)⟩

theorem sqDist_nonneg (u v : Vec3) : 0 ≤ sqDist u v := by
  obtain ⟨ux, uy, uz⟩ := u
  obtain ⟨vx, vy, vz⟩ := v
  simp only [sqDist, Vec3.sub, Vec3.dot]
  nlinarith [sq_nonneg (ux - vx), sq_nonneg (uy - vy), sq_nonneg (uz - vz)]

theorem sqDist_eq_zero_iff {u v : Vec3} : sqDist u v = 0 ↔ u = v := by
  obtain ⟨ux, uy, uz⟩ := u
  obtain ⟨vx, vy, vz⟩ := v
  simp only [sqDist, Vec3.sub, Vec3.dot, Vec3.mk.injEq]
  constructor
  · intro h
    refine ⟨?_, ?_, ?_⟩ <;>
      nlinarith [sq_nonneg (ux - vx), sq_nonneg (uy - vy), sq_nonneg (uz - vz)]
  · rintro ⟨rfl, rfl, rfl⟩
    ring

theorem sqDist_self (u : Vec3) : sqDist u u = 0 := by
  rw [sqDist_eq_zero_iff]

theorem closestPt_at_vertex_a (a b c : Vec3) : closestPtOnTriangle a a b c = a := by
  obtain ⟨ax, ay, az⟩ := a
  obtain ⟨bx, bY, bz⟩ := b
  obtain ⟨cx, cy, cz⟩ := c
  simp [closestPtOnTriangle, Vec3.sub, Vec3.dot, Vec3.add, Vec3.smul]

theorem closestPt_at_vertex_b (a b c : Vec3) : closestPtOnTriangle b a b c = b := by
  obtain ⟨ax, ay, az⟩ := a
  obtain ⟨bx, bY, bz⟩ := b
  obtain ⟨cx, cy, cz⟩ := c
  simp [closestPtOnTriangle, Vec3.sub, Vec3.dot, Vec3.add, Vec3.smul]
  intro h1 h2
  refine ⟨?_, ?_, ?_⟩ <;>
    nlinarith [sq_nonneg (bx - ax), sq_nonneg (bY - ay), sq_nonneg (bz - az)]

theorem sum_sq_pos (p q r : ℚ) (h : ¬(p = 0 ∧ q = 0 ∧ r = 0)) :
    0 < p ^ 2 + q ^ 2 + r ^ 2 := by
  rcases ne_or_eq p 0 with hp | hp
  · nlinarith [sq_nonneg q, sq_nonneg r, sq_pos_of_ne_zero hp]
  rcases ne_or_eq q 0 with hq | hq
  · nlinarith [sq_nonneg p, sq_nonneg r, sq_pos_of_ne_zero hq]
  rcases ne_or_eq r 0 with hr | hr
  · nlinarith [sq_nonneg p, sq_nonneg q, sq_pos_of_ne_zero hr]
  exact absurd ⟨hp, hq, hr⟩ h

theorem edge_ab_degenerate (ax ay az bx bY bz cx cy cz : ℚ)
    (hab : ¬(ax = bx ∧ ay = bY ∧ az = bz))
    (hvc : ((bx - ax) * (cx - ax) + (bY - ay) * (cy - ay) + (bz - az) * (cz - az)) *
          ((cx - ax) * (cx - bx) + (cy - ay) * (cy - bY) + (cz - az) * (cz - bz)) ≤
        ((bx - ax) * (cx - bx) + (bY - ay) * (cy - bY) + (bz - az) * (cz - bz)) *
          ((cx - ax) * (cx - ax) + (cy - ay) * (cy - ay) + (cz - az) * (cz - az))) :
    ax + ((bx - ax) * (cx - ax) + (bY - ay) * (cy - ay) + (bz - az) * (cz - az)) /
        ((bx - ax) * (cx - ax) + (bY - ay) * (cy - ay) + (bz - az) * (cz - az) -
          ((bx - ax) * (cx - bx) + (bY - ay) * (cy - bY) + (bz - az) * (cz - bz))) *
        (bx - ax) = cx ∧
    ay + ((bx - ax) * (cx - ax) + (bY - ay) * (cy - ay) + (bz - az) * (cz - az)) /
        ((bx - ax) * (cx - ax) + (bY - ay) * (cy - ay) + (bz - az) * (cz - az) -
          ((bx - ax) * (cx - bx) + (bY - ay) * (cy - bY) + (bz - az) * (cz - bz))) *
        (bY - ay) = cy ∧
    az + ((bx - ax) * (cx - ax) + (bY - ay) * (cy - ay) + (bz - az) * (cz - az)) /
        ((bx - ax) * (cx - ax) + (bY - ay) * (cy - ay) + (bz - az) * (cz - az) -
          ((bx - ax) * (cx - bx) + (bY - ay) * (cy - bY) + (bz - az) * (cz - bz))) *
        (bz - az) = cz := by
  have hvc2 : ((bY - ay) * (cz - az) - (bz - az) * (cy - ay)) ^ 2 +
      ((bz - az) * (cx - ax) - (bx - ax) * (cz - az)) ^ 2 +
      ((bx - ax) * (cy - ay) - (bY - ay) * (cx - ax)) ^ 2 ≤ 0 := by
    have heq : ((bx - ax) * (cx - ax) + (bY - ay) * (cy - ay) + (bz - az) * (cz - az)) *
          ((cx - ax) * (cx - bx) + (cy - ay) * (cy - bY) + (cz - az) * (cz - bz)) -
        ((bx - ax) * (cx - bx) + (bY - ay) * (cy - bY) + (bz - az) * (cz - bz)) *
          ((cx - ax) * (cx - ax) + (cy - ay) * (cy - ay) + (cz - az) * (cz - az)) =
        ((bY - ay) * (cz - az) - (bz - az) * (cy - ay)) ^ 2 +
        ((bz - az) * (cx - ax) - (bx - ax) * (cz - az)) ^ 2 +
        ((bx - ax) * (cy - ay) - (bY - ay) * (cx - ax)) ^ 2 := by ring
    linarith [hvc, heq]
  have hcX : (bY - ay) * (cz - az) - (bz - az) * (cy - ay) = 0 := by
    have hs : ((bY - ay) * (cz - az) - (bz - az) * (cy - ay)) ^ 2 ≤ 0 := by
      linarith [hvc2, sq_nonneg ((bz - az) * (cx - ax) - (bx - ax) * (cz - az)),
        sq_nonneg ((bx - ax) * (cy - ay) - (bY - ay) * (cx - ax))]
    exact pow_eq_zero_iff two_ne_zero |>.mp (le_antisymm hs (sq_nonneg _))
  have hcY : (bz - az) * (cx - ax) - (bx - ax) * (cz - az) = 0 := by
    have hs : ((bz - az) * (cx - ax) - (bx - ax) * (cz - az)) ^ 2 ≤ 0 := by
      linarith [hvc2, sq_nonneg ((bY - ay) * (cz - az) - (bz - az) * (cy - ay)),
        sq_nonneg ((bx - ax) * (cy - ay) - (bY - ay) * (cx - ax))]
    exact pow_eq_zero_iff two_ne_zero |>.mp (le_antisymm hs (sq_nonneg _))
  have hcZ : (bx - ax) * (cy - ay) - (bY - ay) * (cx - ax) = 0 := by
    have hs : ((bx - ax) * (cy - ay) - (bY - ay) * (cx - ax)) ^ 2 ≤ 0 := by
      linarith [hvc2, sq_nonneg ((bY - ay) * (cz - az) - (bz - az) * (cy - ay)),
        sq_nonneg ((bz - az) * (cx - ax) - (bx - ax) * (cz - az))]
    exact pow_eq_zero_iff two_ne_zero |>.mp (le_antisymm hs (sq_nonneg _))
  have hab2 : ¬(bx - ax = 0 ∧ bY - ay = 0 ∧ bz - az = 0) := by
    rintro ⟨h1, h2, h3⟩
    exact hab ⟨by linarith, by linarith, by linarith⟩
  have hn1 : 0 < (bx - ax) ^ 2 + (bY - ay) ^ 2 + (bz - az) ^ 2 :=
    sum_sq_pos _ _ _ hab2
  have hden : (bx - ax) * (cx - ax) + (bY - ay) * (cy - ay) + (bz - az) * (cz - az) -
      ((bx - ax) * (cx - bx) + (bY - ay) * (cy - bY) + (bz - az) * (cz - bz)) =
      (bx - ax) ^ 2 + (bY - ay) ^ 2 + (bz - az) ^ 2 := by ring
  have hxc : ((bx - ax) * (cx - ax) + (bY - ay) * (cy - ay) + (bz - az) * (cz - az)) *
      (bx - ax) = ((bx - ax) ^ 2 + (bY - ay) ^ 2 + (bz - az) ^ 2) * (cx - ax) := by
    linear_combination (bY - ay) * hcZ - (bz - az) * hcY
  have hyc : ((bx - ax) * (cx - ax) + (bY - ay) * (cy - ay) + (bz - az) * (cz - az)) *
      (bY - ay) = ((bx - ax) ^ 2 + (bY - ay) ^ 2 + (bz - az) ^ 2) * (cy - ay) := by
    linear_combination (bz - az) * hcX - (bx - ax) * hcZ
  have hzc : ((bx - ax) * (cx - ax) + (bY - ay) * (cy - ay) + (bz - az) * (cz - az)) *
      (bz - az) = ((bx - ax) ^ 2 + (bY - ay) ^ 2 + (bz - az) ^ 2) * (cz - az) := by
    linear_combination (bx - ax) * hcY - (bY - ay) * hcX
  rw [hden]
  refine ⟨?_, ?_, ?_⟩
  · rw [div_mul_eq_mul_div, hxc, mul_div_cancel_left₀ _ (ne_of_gt hn1)]
    ring
  · rw [div_mul_eq_mul_div, hyc, mul_div_cancel_left₀ _ (ne_of_gt hn1)]
    ring
  · rw [div_mul_eq_mul_div, hzc, mul_div_cancel_left₀ _ (ne_of_gt hn1)]
    ring

theorem closestPt_at_vertex_c (a b c : Vec3) (hab : a ≠ b) :
    closestPtOnTriangle c a b c = c := by
  obtain ⟨ax, ay, az⟩ := a
  obtain ⟨bx, bY, bz⟩ := b
  obtain ⟨cx, cy, cz⟩ := c
  simp only [ne_eq, Vec3.mk.injEq] at hab
  simp [closestPtOnTriangle, Vec3.sub, Vec3.dot, Vec3.add, Vec3.smul]
  split_ifs with h1 h2 h3
  · simp only [Vec3.mk.injEq]
    refine ⟨?_, ?_, ?_⟩ <;>
      nlinarith [h1.2, sq_nonneg (cx - ax), sq_nonneg (cy - ay), sq_nonneg (cz - az)]
  · simp only [Vec3.mk.injEq]
    refine ⟨?_, ?_, ?_⟩ <;>
      nlinarith [h2.2, sq_nonneg (cx - bx), sq_nonneg (cy - bY), sq_nonneg (cz - bz)]
  · simp only [Vec3.mk.injEq]
    exact edge_ab_degenerate ax ay az bx bY bz cx cy cz hab h3.1
  · rfl

theorem closestPtOnTriangle_self (p a b c : Vec3)
    (hmem : p = a ∨ p = b ∨ p = c)
    (hab : a ≠ b) (hac : a ≠ c) (hbc : b ≠ c) :
    closestPtOnTriangle p a b c = p := by
  rcases hmem with rfl | rfl | rfl
  · exact closestPt_at_vertex_a p b c
  · exact closestPt_at_vertex_b a p c
  · exact closestPt_at_vertex_c a b p hab

theorem locateBest_spec (vs : List Vec3) (p : Vec3) (fs : List (ℕ × ℕ × ℕ))
    (best : ℚ × Vec3) (hb : sqDist best.2 p = best.1) :
    sqDist (locateBest vs p fs best).2 p = (locateBest vs p fs best).1 ∧
    (locateBest vs p fs best).1 ≤ best.1 ∧
    ∀ f ∈ fs, (locateBest vs p fs best).1 ≤ sqDist (closestPtOnFace vs p f) p := by
  induction fs generalizing best with
  | nil => exact ⟨hb, le_refl _, by simp⟩
  | cons f rest ih =>
      simp only [locateBest]
      by_cases hlt : sqDist (closestPtOnFace vs p f) p < best.1
      · rw [if_pos hlt]
        obtain ⟨ha, hle, hall⟩ :=
          ih (sqDist (closestPtOnFace vs p f) p, closestPtOnFace vs p f) rfl
        refine ⟨ha, le_trans hle (le_of_lt hlt), ?_⟩
        intro g hg
        rcases List.mem_cons.mp hg with rfl | hg
        · exact hle
        · exact hall g hg
      · rw [if_neg hlt]
        obtain ⟨ha, hle, hall⟩ := ih best hb
        refine ⟨ha, hle, ?_⟩
        intro g hg
        rcases List.mem_cons.mp hg with rfl | hg
        · exact le_trans hle (not_lt.mp hlt)
        · exact hall g hg

theorem locate_eq_self (vs : List Vec3) (fs : List (ℕ × ℕ × ℕ)) (p : Vec3)
    {f : ℕ × ℕ × ℕ} (hf : f ∈ fs) (hcp : closestPtOnFace vs p f = p) :
    locateClosestPoint vs fs p = p := by
  cases fs with
  | nil => cases hf
  | cons f0 rest =>
      unfold locateClosestPoint
      obtain ⟨ha, hle, hall⟩ := locateBest_spec vs p rest
        (sqDist (closestPtOnFace vs p f0) p, closestPtOnFace vs p f0) rfl
      have hzero : (locateBest vs p rest
          (sqDist (closestPtOnFace vs p f0) p, closestPtOnFace vs p f0)).1 ≤ 0 := by
        rcases List.mem_cons.mp hf with rfl | hmem
        · calc (locateBest vs p rest
                (sqDist (closestPtOnFace vs p f) p, closestPtOnFace vs p f)).1
              ≤ sqDist (closestPtOnFace vs p f) p := hle
            _ = 0 := by rw [hcp]; exact sqDist_self p
        · calc (locateBest vs p rest
                (sqDist (closestPtOnFace vs p f0) p, closestPtOnFace vs p f0)).1
              ≤ sqDist (closestPtOnFace vs p f) p := hall f hmem
            _ = 0 := by rw [hcp]; exact sqDist_self p
      have hzero2 : sqDist (locateBest vs p rest
          (sqDist (closestPtOnFace vs p f0) p, closestPtOnFace vs p f0)).2 p = 0 :=
        le_antisymm (ha ▸ hzero) (sqDist_nonneg _ _)
      exact sqDist_eq_zero_iff.mp hzero2

/-- C7, amended: with the spec-modelled nearest-surface locator standing
for `igl.signed_distance`, the locate/snap operation never fails for a
mesh with at least one face whose face indices are valid (the spec's mesh
invariant): it returns a vertex index that is a valid index into the
mesh's vertex list; and for a query point coincident with a vertex that
is a corner of some face with pairwise-distinct corner positions, it
returns that vertex's position as both the nearest surface point and the
snapped vertex, with zero offset distances.  (The original, unqualified
claim is false: see the counterexample with an isolated vertex below.) -/
theorem locate_never_fails_and_vertex_coincident
    (vs : List Vec3) (fs : List (ℕ × ℕ × ℕ)) (point : Vec3)
    (hfs : fs ≠ [])
    (hvalid : ∀ f ∈ fs, f.1 < vs.length ∧ f.2.1 < vs.length ∧ f.2.2 < vs.length) :
    SnapLocateSpec vs fs point := by
  have hvne : vs ≠ [] := by
    cases fs with
    | nil => exact absurd rfl hfs
    | cons f rest =>
        have h1 := (hvalid f (List.mem_cons_self f rest)).1
        intro h
        rw [h] at h1
        simp at h1
  obtain ⟨hidx, hcpdef, hvert, hmin, htie⟩ :=
    snapArgmin_holds locateClosestPoint vs fs point hvne
  unfold SnapLocateSpec
  refine ⟨hidx, ?_⟩
  intro v f hf hvf hpv hdist
  have hvlt : v < vs.length := by
    obtain ⟨h1, h2, h3⟩ := hvalid f hf
    rcases hvf with rfl | rfl | rfl <;> assumption
  have hcpt : closestPtOnFace vs point f = point := by
    show closestPtOnTriangle point (vs.getD f.1 vzero) (vs.getD f.2.1 vzero)
      (vs.getD f.2.2 vzero) = point
    apply closestPtOnTriangle_self
    · rcases hvf with rfl | rfl | rfl
      · left; exact hpv
      · right; left; exact hpv
      · right; right; exact hpv
    · exact hdist.1
    · exact hdist.2.1
    · exact hdist.2.2
  have hloc : locateClosestPoint vs fs point = point :=
    locate_eq_self vs fs point hf hcpt
  have hcp : snapCP locateClosestPoint vs fs point = point := by
    rw [hcpdef, hloc]
  have hdv : sqDist (vs.getD v vzero) (snapCP locateClosestPoint vs fs point) = 0 := by
    rw [hcp, ← hpv]
    exact sqDist_self point
  have hminv := hmin v hvlt
  have hzero : sqDist (vs.getD (snapIdx locateClosestPoint vs fs point) vzero)
      (snapCP locateClosestPoint vs fs point) = 0 :=
    le_antisymm (hdv ▸ hminv) (sqDist_nonneg _ _)
  have hveq : vs.getD (snapIdx locateClosestPoint vs fs point) vzero = point := by
    have h2 := sqDist_eq_zero_iff.mp hzero
    rw [h2, hcp]
  refine ⟨hcp, hveq, ?_, ?_⟩
  · rw [hcp]; exact sqDist_self point
  · rw [hvert, hveq, hcp]; exact sqDist_self point

/-- Witness for C7 at a concrete one-face mesh and a query point
coincident with its first vertex. -/
theorem locate_never_fails_witness :
    exFs7 ≠ [] ∧
    (∀ f ∈ exFs7, f.1 < exVs7.length ∧ f.2.1 < exVs7.length ∧ f.2.2 < exVs7.length) ∧
    SnapLocateSpec exVs7 exFs7 vzero :=
  ⟨by decide, by decide,
   locate_never_fails_and_vertex_coincident exVs7 exFs7 vzero (by decide) (by decide)⟩

/-- Counterexample to C7 as stated: the coincident-vertex guarantee fails
for a vertex the faces never reference.  In the four-vertex mesh
`exVs8` with the single face `exFs8`, the query point coincides with
mesh vertex 3 at position (5, 5, 5), yet the snap operation returns a
different vertex (index 0, position (0, 0, 0), not index 3), and the
offset from the query point to the returned surface point is nonzero —
the nearest surface point lies on the one face, far from the isolated
vertex. -/
theorem locate_coincident_vertex_counterexample :
    exFs8 ≠ [] ∧
    exVs8.getD 3 vzero = ⟨5, 5, 5⟩ ∧
    snapVert locateClosestPoint exVs8 exFs8 ⟨5, 5, 5⟩ ≠ ⟨5, 5, 5⟩ ∧
    snapIdx locateClosestPoint exVs8 exFs8 ⟨5, 5, 5⟩ ≠ 3 ∧
    sqDist (snapCP locateClosestPoint exVs8 exFs8 ⟨5, 5, 5⟩) ⟨5, 5, 5⟩ ≠ 0 := by
  have hcpt : closestPtOnTriangle ⟨5, 5, 5⟩ ⟨0, 0, 0⟩ ⟨1, 0, 0⟩ ⟨0, 1, 0⟩ =
      ⟨1/2, 1/2, 0⟩ := by
    norm_num [closestPtOnTriangle, Vec3.sub, Vec3.dot, Vec3.add, Vec3.smul]
  have hloc : locateClosestPoint exVs8 exFs8 ⟨5, 5, 5⟩ = ⟨1/2, 1/2, 0⟩ := hcpt
  have hdists : exVs8.map (fun v => sqDist v (⟨1/2, 1/2, 0⟩ : Vec3)) =
      [1/2, 1/2, 1/2, 131/2] := by
    norm_num [exVs8, sqDist, Vec3.sub, Vec3.dot]
  have hminv : listMinD [(1:ℚ)/2, 1/2, 1/2, 131/2] = 1/2 := by
    norm_num [listMinD, min_def]
  have hargmin : argminQ [(1:ℚ)/2, 1/2, 1/2, 131/2] = 0 := by
    rw [argminQ, hminv]
    norm_num [List.findIdx_cons]
  have hsnap : snapToClosestVertex locateClosestPoint exVs8 exFs8 ⟨5, 5, 5⟩ =
      (⟨1/2, 1/2, 0⟩, ⟨0, 0, 0⟩, 0) := by
    show (locateClosestPoint exVs8 exFs8 ⟨5, 5, 5⟩,
        exVs8.getD (argminQ (exVs8.map (fun v =>
          sqDist v (locateClosestPoint exVs8 exFs8 ⟨5, 5, 5⟩)))) vzero,
        argminQ (exVs8.map (fun v =>
          sqDist v (locateClosestPoint exVs8 exFs8 ⟨5, 5, 5⟩)))) =
      (⟨1/2, 1/2, 0⟩, ⟨0, 0, 0⟩, 0)
    rw [hloc, hdists, hargmin]
    rfl
  have hvert : snapVert locateClosestPoint exVs8 exFs8 ⟨5, 5, 5⟩ = ⟨0, 0, 0⟩ := by
    unfold snapVert
    rw [hsnap]
  have hidx : snapIdx locateClosestPoint exVs8 exFs8 ⟨5, 5, 5⟩ = 0 := by
    unfold snapIdx
    rw [hsnap]
  have hcp : snapCP locateClosestPoint exVs8 exFs8 ⟨5, 5, 5⟩ = ⟨1/2, 1/2, 0⟩ := by
    unfold snapCP
    rw [hsnap]
  refine ⟨by decide, rfl, ?_, ?_, ?_⟩
  · rw [hvert]
    simp only [ne_eq, Vec3.mk.injEq, not_and]
    norm_num
  · rw [hidx]
    decide
  · rw [hcp]
    norm_num [sqDist, Vec3.sub, Vec3.dot]
